import Mathlib

/-!
Verification of the `gutters` library (src/src/lib.rs): blocking transfer
and synchronization primitives over a duplex byte stream.

A value of a fixed-size plain type `T` is modelled by its in-memory byte
representation: a `List Nat` of length `size_of::<T>()`, one entry per
byte. A duplex stream (a "gutter") is modelled by the bytes still
available on its read side, the bytes written so far on its write side,
and two flags recording whether the underlying read or write calls of
the transport fail (closed or errored stream).
-/

namespace Gutters

/-- I/O errors surfaced by the stream abstraction (`std::io::Error`):
either the unexpected-end-of-stream error produced by `read_exact` on a
short read, or any transport error from the underlying stream. -/
inductive IoError where
  | unexpectedEof
  | other
deriving DecidableEq, Repr

/-- A duplex byte stream. `input` holds the bytes still deliverable to
reads (after which the stream is at end-of-stream); `output` holds the
bytes written so far; `readErr` (resp. `writeErr`) records that the
underlying read (resp. write) calls fail with a transport error. -/
structure Gutter where
  input : List Nat
  output : List Nat
  readErr : Bool
  writeErr : Bool
deriving DecidableEq, Repr

/-- `std::io::Read::read_exact` on the model. Returns the status, the
stream after the call, and the buffer contents after the call. With an
empty buffer it returns at once without touching the stream. Otherwise a
transport error fails the call; if enough bytes are available they are
consumed and overwrite the buffer; on end-of-stream before the requested
count, the available bytes are consumed into the front of the buffer and
the call fails with the unexpected-EOF error. -/
def read_exact (g : Gutter) (buf : List Nat) :
    Except IoError Unit × Gutter × List Nat :=
  if buf.length = 0 then (Except.ok (), g, buf)
  else if g.readErr then (Except.error IoError.other, g, buf)
  else if buf.length ≤ g.input.length then
    (Except.ok (), { g with input := g.input.drop buf.length },
      g.input.take buf.length)
  else
    (Except.error IoError.unexpectedEof, { g with input := [] },
      g.input ++ buf.drop g.input.length)

/-- `std::io::Write::write_all` on the model. With an empty buffer it
returns at once without touching the stream; otherwise a transport error
fails the call, and else the whole buffer is appended to the stream. -/
def write_all (g : Gutter) (buf : List Nat) : Except IoError Unit × Gutter :=
  if buf.length = 0 then (Except.ok (), g)
  else if g.writeErr then (Except.error IoError.other, g)
  else (Except.ok (), { g with output := g.output ++ buf })

/-- `as_u8_slice_mut`: the mutable byte view of a value. The model
represents a value by its byte representation already, so the
reinterpreting view is the identity: same bytes, same length, aliasing
the value's storage. -/
def as_u8_slice_mut (v : List Nat) : List Nat := v

/-- `as_u8_slice`: the immutable byte view of a value; identity on the
byte representation, as for `as_u8_slice_mut`. -/
def as_u8_slice (v : List Nat) : List Nat := v

/-- `pub fn pick_up<G: Read + Write, T>(gutter: &mut G, buffer: &mut T)`:
`gutter.read_exact(as_u8_slice_mut(buffer))`. The returned list is the
buffer contents after the call (the view aliases the value). -/
def pick_up (g : Gutter) (buffer : List Nat) :
    Except IoError Unit × Gutter × List Nat :=
  read_exact g (as_u8_slice_mut buffer)

/-- `pub fn throw<G: Read + Write, T>(gutter: &mut G, buffer: &T)`:
`gutter.write_all(as_u8_slice(buffer))`. -/
def throw (g : Gutter) (buffer : List Nat) : Except IoError Unit × Gutter :=
  write_all g (as_u8_slice buffer)

/-- `pub fn hail<G: Write>(gutter: &mut G)`: `gutter.write_all(b"\n")`,
a single byte of value 10. -/
def hail (g : Gutter) : Except IoError Unit × Gutter :=
  write_all g [10]

/-- `pub fn wait<G: Read>(gutter: &mut G)`:
`gutter.read_exact(&mut [0u8])` — reads one byte into a scratch buffer
that is then discarded. -/
def wait (g : Gutter) : Except IoError Unit × Gutter :=
  ((read_exact g [0]).1, (read_exact g [0]).2.1)

/-- `pub fn pick_up_and_hail<G: Read + Write, T>`:
`pick_up(gutter, buffer)?; hail(gutter)`. The `?` short-circuits on a
`pick_up` error; on success the (already mutated) buffer is kept while
`hail` runs. -/
def pick_up_and_hail (g : Gutter) (buffer : List Nat) :
    Except IoError Unit × Gutter × List Nat :=
  match pick_up g buffer with
  | (Except.error e, g1, b1) => (Except.error e, g1, b1)
  | (Except.ok _, g1, b1) =>
    match hail g1 with
    | (Except.error e, g2) => (Except.error e, g2, b1)
    | (Except.ok _, g2) => (Except.ok (), g2, b1)

/-- `pub fn throw_and_wait<G: Read + Write, T>`:
`throw(gutter, buffer)?; wait(gutter)`. -/
def throw_and_wait (g : Gutter) (buffer : List Nat) :
    Except IoError Unit × Gutter :=
  match throw g buffer with
  | (Except.error e, g1) => (Except.error e, g1)
  | (Except.ok _, g1) => wait g1

/-- The stream capabilities of the Rust `std::io` abstraction. -/
inductive Capability where
  | read
  | write
deriving DecidableEq, Repr

/-- The six public operations of the library. -/
inductive Op where
  | pick_up
  | throw
  | hail
  | wait
  | pick_up_and_hail
  | throw_and_wait
deriving DecidableEq, Repr

/-- The trait bounds each public function places on the stream type `G`
in the source: `pick_up<G: Read + Write>`, `throw<G: Read + Write>`,
`hail<G: Write>`, `wait<G: Read>`, `pick_up_and_hail<G: Read + Write>`,
`throw_and_wait<G: Read + Write>`. -/
def requiredCapabilities : Op → List Capability
  | Op.pick_up => [Capability.read, Capability.write]
  | Op.throw => [Capability.read, Capability.write]
  | Op.hail => [Capability.write]
  | Op.wait => [Capability.read]
  | Op.pick_up_and_hail => [Capability.read, Capability.write]
  | Op.throw_and_wait => [Capability.read, Capability.write]

end Gutters

namespace Gutters

/-- Helper: `read_exact` never touches the write side of the stream. -/
theorem read_exact_output (g : Gutter) (b : List Nat) :
    (read_exact g b).2.1.output = g.output ∧
    (read_exact g b).2.1.writeErr = g.writeErr := by
  unfold read_exact
  split
  · exact ⟨rfl, rfl⟩
  · split
    · exact ⟨rfl, rfl⟩
    · split
      · exact ⟨rfl, rfl⟩
      · exact ⟨rfl, rfl⟩

/-- Helper: `write_all` never touches the read side of the stream. -/
theorem write_all_input (g : Gutter) (b : List Nat) :
    (write_all g b).2.input = g.input ∧
    (write_all g b).2.readErr = g.readErr := by
  unfold write_all
  split
  · exact ⟨rfl, rfl⟩
  · split
    · exact ⟨rfl, rfl⟩
    · exact ⟨rfl, rfl⟩

/-- Helper: a successful `pick_up` fills the buffer with exactly the
next `buf.length` input bytes and advances the stream past them. -/
theorem pick_up_ok_buffer (g : Gutter) (buf : List Nat)
    (hp : (pick_up g buf).1 = Except.ok ()) :
    (pick_up g buf).2.2 = g.input.take buf.length ∧
    (pick_up g buf).2.1 = { g with input := g.input.drop buf.length } := by
  unfold pick_up read_exact as_u8_slice_mut at hp ⊢
  by_cases h0 : buf.length = 0
  · have hb : buf = [] := List.length_eq_zero.mp h0
    subst hb
    simp
  · by_cases hr : g.readErr
    · simp [h0, hr] at hp
    · by_cases hle : buf.length ≤ g.input.length
      · simp [h0, hr, hle]
      · simp [h0, hr, hle] at hp

/-- Helper: a failing `write_all` leaves the stream unchanged. -/
theorem write_all_error_state (g : Gutter) (b : List Nat) (e : IoError)
    (h : (write_all g b).1 = Except.error e) : (write_all g b).2 = g := by
  unfold write_all at h ⊢
  by_cases h0 : b.length = 0
  · simp [h0] at h
  · by_cases hw : g.writeErr
    · simp [h0, hw]
    · simp [h0, hw] at h

/-- C9: for a zero-sized type `T` (`size_of::<T>() = 0`, an empty byte
representation) `pick_up` and `throw` always succeed without reading or
writing any byte, leaving the stream untouched, even on a closed or
already-exhausted stream. -/
theorem zero_sized_noop (g : Gutter) (buf : List Nat) (h : buf.length = 0) :
    pick_up g buf = (Except.ok (), g, buf) ∧
    throw g buf = (Except.ok (), g) := by
  simp [pick_up, throw, read_exact, write_all, as_u8_slice, as_u8_slice_mut, h]

/-- Witness for C9 at a closed, exhausted stream. -/
theorem zero_sized_noop_witness :
    ([] : List Nat).length = 0 ∧
    (pick_up ⟨[], [], true, true⟩ [] = (Except.ok (), ⟨[], [], true, true⟩, []) ∧
     throw ⟨[], [], true, true⟩ [] = (Except.ok (), ⟨[], [], true, true⟩)) :=
  ⟨rfl, zero_sized_noop ⟨[], [], true, true⟩ [] rfl⟩

/-- C2: `pick_up` into a buffer of positive size on a stream that
reaches end-of-stream after fewer than `size_of::<T>()` bytes (zero
included) returns an I/O error instead of succeeding. -/
theorem pick_up_short_read_errors (g : Gutter) (buf : List Nat)
    (h : g.input.length < buf.length) :
    (pick_up g buf).1.isOk = false := by
  have h0 : ¬ buf.length = 0 := by omega
  have h1 : ¬ buf.length ≤ g.input.length := by omega
  by_cases hr : g.readErr <;>
    simp [pick_up, read_exact, as_u8_slice_mut, Except.isOk, Except.toBool,
      h0, h1, hr]

/-- Witness for C2: the stream holds zero bytes and the buffer one. -/
theorem pick_up_short_read_errors_witness :
    (Gutter.mk [] [] false false).input.length < [(0:Nat)].length ∧
    (pick_up ⟨[], [], false, false⟩ [0]).1.isOk = false :=
  ⟨by decide, pick_up_short_read_errors ⟨[], [], false, false⟩ [0] (by decide)⟩

/-- C3: on a healthy stream holding at least `size_of::<T>()` bytes,
`pick_up` succeeds, the buffer receives exactly the next
`size_of::<T>()` bytes, and exactly that many bytes are consumed: the
remaining input is the immediately following bytes, with none duplicated
or skipped. -/
theorem pick_up_exact_consumption (g : Gutter) (buf : List Nat)
    (hr : g.readErr = false) (h : buf.length ≤ g.input.length) :
    (pick_up g buf).1 = Except.ok () ∧
    (pick_up g buf).2.2 = g.input.take buf.length ∧
    (pick_up g buf).2.2.length = buf.length ∧
    (pick_up g buf).2.1.input = g.input.drop buf.length ∧
    (pick_up g buf).2.2 ++ (pick_up g buf).2.1.input = g.input := by
  by_cases h0 : buf.length = 0
  · have hb : buf = [] := List.length_eq_zero.mp h0
    subst hb
    simp [pick_up, read_exact, as_u8_slice_mut]
  · refine ⟨?_, ?_, ?_, ?_, ?_⟩ <;>
      simp [pick_up, read_exact, as_u8_slice_mut, h0, hr, h,
        List.length_take, List.take_append_drop]

/-- Witness for C3: two bytes read from a three-byte stream. -/
theorem pick_up_exact_consumption_witness :
    (Gutter.mk [1, 2, 3] [] false false).readErr = false ∧
    [(0:Nat), 0].length ≤ (Gutter.mk [1, 2, 3] [] false false).input.length ∧
    ((pick_up ⟨[1, 2, 3], [], false, false⟩ [0, 0]).1 = Except.ok () ∧
     (pick_up ⟨[1, 2, 3], [], false, false⟩ [0, 0]).2.2 =
       List.take [(0:Nat), 0].length [1, 2, 3] ∧
     (pick_up ⟨[1, 2, 3], [], false, false⟩ [0, 0]).2.2.length =
       [(0:Nat), 0].length ∧
     (pick_up ⟨[1, 2, 3], [], false, false⟩ [0, 0]).2.1.input =
       List.drop [(0:Nat), 0].length [1, 2, 3] ∧
     (pick_up ⟨[1, 2, 3], [], false, false⟩ [0, 0]).2.2 ++
       (pick_up ⟨[1, 2, 3], [], false, false⟩ [0, 0]).2.1.input = [1, 2, 3]) :=
  ⟨rfl, by decide,
    pick_up_exact_consumption ⟨[1, 2, 3], [], false, false⟩ [0, 0] rfl (by decide)⟩

/-- C4: on a healthy stream `throw` succeeds and appends to the stream
exactly the buffer's raw byte view — byte-for-byte the value's in-memory
representation, with no transformation — while leaving the read side
untouched. -/
theorem throw_emits_raw_bytes (g : Gutter) (buf : List Nat)
    (hw : g.writeErr = false) :
    (throw g buf).1 = Except.ok () ∧
    as_u8_slice buf = buf ∧
    (as_u8_slice buf).length = buf.length ∧
    (throw g buf).2.output = g.output ++ as_u8_slice buf ∧
    (throw g buf).2.input = g.input := by
  by_cases h0 : buf.length = 0
  · have hb : buf = [] := List.length_eq_zero.mp h0
    subst hb
    simp [throw, write_all, as_u8_slice]
  · simp [throw, write_all, as_u8_slice, h0, hw]

/-- Witness for C4 at a three-byte value. -/
theorem throw_emits_raw_bytes_witness :
    (Gutter.mk [9] [7] false false).writeErr = false ∧
    ((throw ⟨[9], [7], false, false⟩ [1, 2, 3]).1 = Except.ok () ∧
     as_u8_slice [(1:Nat), 2, 3] = [1, 2, 3] ∧
     (as_u8_slice [(1:Nat), 2, 3]).length = [(1:Nat), 2, 3].length ∧
     (throw ⟨[9], [7], false, false⟩ [1, 2, 3]).2.output =
       [7] ++ as_u8_slice [1, 2, 3] ∧
     (throw ⟨[9], [7], false, false⟩ [1, 2, 3]).2.input = [9]) :=
  ⟨rfl, throw_emits_raw_bytes ⟨[9], [7], false, false⟩ [1, 2, 3] rfl⟩

/-- C6: every successful `hail` appends to the stream exactly one byte,
of value 10 (the newline byte). -/
theorem hail_writes_single_newline (g : Gutter)
    (h : (hail g).1 = Except.ok ()) :
    (hail g).2.output = g.output ++ [10] := by
  unfold hail write_all at h ⊢
  by_cases hw : g.writeErr
  · simp [hw] at h
  · simp [hw]

/-- Witness for C6 on a healthy stream. -/
theorem hail_writes_single_newline_witness :
    (hail ⟨[], [3], false, false⟩).1 = Except.ok () ∧
    (hail ⟨[], [3], false, false⟩).2.output = [3] ++ [10] :=
  ⟨rfl, hail_writes_single_newline ⟨[], [3], false, false⟩ rfl⟩

/-- C7: on a healthy stream holding at least one byte, `wait` succeeds
and consumes exactly that byte, whatever its value, changing nothing
else; on a stream with no byte before end-of-stream, `wait` returns an
I/O error. -/
theorem wait_reads_one_arbitrary_byte (g : Gutter) (hr : g.readErr = false) :
    (0 < g.input.length →
      wait g = (Except.ok (), { g with input := g.input.drop 1 })) ∧
    (g.input.length = 0 → (wait g).1.isOk = false) := by
  constructor
  · intro hpos
    have h1 : 1 ≤ g.input.length := hpos
    simp [wait, read_exact, hr, h1]
  · intro h0
    simp [wait, read_exact, Except.isOk, Except.toBool, hr, h0]

/-- Witness for C7 at a stream holding the single byte 7 (not 10). -/
theorem wait_reads_one_arbitrary_byte_witness :
    (Gutter.mk [7] [] false false).readErr = false ∧
    ((0 < (Gutter.mk [7] [] false false).input.length →
      wait ⟨[7], [], false, false⟩ =
        (Except.ok (), { Gutter.mk [7] [] false false with
          input := List.drop 1 [7] })) ∧
     ((Gutter.mk [7] [] false false).input.length = 0 →
      (wait ⟨[7], [], false, false⟩).1.isOk = false)) :=
  ⟨rfl, wait_reads_one_arbitrary_byte ⟨[7], [], false, false⟩ rfl⟩

/-- C1: round-trip over a connected duplex pipe. Peer A `throw`s the
value `v` into a healthy stream; peer B, whose read side is connected to
A's write side (B's incoming bytes are exactly the bytes A wrote,
possibly followed by later traffic), `pick_up`s into a buffer of the
same size: both calls succeed and B's buffer holds exactly the bytes of
`v`, bit for bit. -/
theorem throw_pick_up_roundtrip (v buf extra : List Nat) (gA gB : Gutter)
    (hlen : buf.length = v.length)
    (hwA : gA.writeErr = false) (hout : gA.output = [])
    (hrB : gB.readErr = false)
    (hconn : gB.input = (throw gA v).2.output ++ extra) :
    (throw gA v).1 = Except.ok () ∧
    (pick_up gB buf).1 = Except.ok () ∧
    (pick_up gB buf).2.2 = v := by
  by_cases h0 : v.length = 0
  · have hv : v = [] := List.length_eq_zero.mp h0
    subst hv
    have hb : buf = [] := List.length_eq_zero.mp (by simpa using hlen)
    subst hb
    simp [throw, write_all, as_u8_slice, pick_up, read_exact, as_u8_slice_mut]
  · have hth : (throw gA v).2.output = v := by
      simp [throw, write_all, as_u8_slice, h0, hwA, hout]
    have hin : gB.input = v ++ extra := by rw [hconn, hth]
    have hle : buf.length ≤ gB.input.length := by
      rw [hin, List.length_append, hlen]
      omega
    have hbl : ¬ buf.length = 0 := by rw [hlen]; exact h0
    refine ⟨?_, ?_, ?_⟩
    · simp [throw, write_all, as_u8_slice, h0, hwA]
    · simp [pick_up, read_exact, as_u8_slice_mut, hrB, hle, hbl]
    · simp only [pick_up, read_exact, as_u8_slice_mut, hrB, hbl, hle,
        if_neg hbl, if_pos hle, Bool.false_eq_true, if_false]
      rw [hin, hlen]
      exact List.take_left v extra

/-- Witness for C1: the three-byte value `[1, 2, 3]` crosses the pipe. -/
theorem throw_pick_up_roundtrip_witness :
    [(0:Nat), 0, 0].length = [(1:Nat), 2, 3].length ∧
    (Gutter.mk [] [] false false).writeErr = false ∧
    (Gutter.mk [] [] false false).output = [] ∧
    (Gutter.mk [1, 2, 3, 9] [] false false).readErr = false ∧
    (Gutter.mk [1, 2, 3, 9] [] false false).input =
      (throw ⟨[], [], false, false⟩ [1, 2, 3]).2.output ++ [9] ∧
    ((throw ⟨[], [], false, false⟩ [1, 2, 3]).1 = Except.ok () ∧
     (pick_up ⟨[1, 2, 3, 9], [], false, false⟩ [0, 0, 0]).1 = Except.ok () ∧
     (pick_up ⟨[1, 2, 3, 9], [], false, false⟩ [0, 0, 0]).2.2 = [1, 2, 3]) :=
  ⟨rfl, rfl, rfl, rfl, rfl,
    throw_pick_up_roundtrip [1, 2, 3] [0, 0, 0] [9]
      ⟨[], [], false, false⟩ ⟨[1, 2, 3, 9], [], false, false⟩
      rfl rfl rfl rfl rfl⟩

/-- C5: the composite operations short-circuit. If `pick_up` fails
inside `pick_up_and_hail`, the composite returns exactly that error, the
stream is exactly as `pick_up` left it (so `hail` never ran), and no
byte was written. If `throw` fails inside `throw_and_wait`, the
composite returns exactly that error and the stream is unchanged (so
`wait` never ran and no byte was read). -/
theorem composite_short_circuit (g1 g2 : Gutter) (b1 b2 : List Nat)
    (e1 e2 : IoError)
    (h1 : (pick_up g1 b1).1 = Except.error e1)
    (h2 : (throw g2 b2).1 = Except.error e2) :
    ((pick_up_and_hail g1 b1).1 = Except.error e1 ∧
     (pick_up_and_hail g1 b1).2.1 = (pick_up g1 b1).2.1 ∧
     (pick_up_and_hail g1 b1).2.1.output = g1.output) ∧
    ((throw_and_wait g2 b2).1 = Except.error e2 ∧
     (throw_and_wait g2 b2).2 = g2) := by
  have hout1 : (pick_up g1 b1).2.1.output = g1.output :=
    (read_exact_output g1 (as_u8_slice_mut b1)).1
  have hst : (throw g2 b2).2 = g2 :=
    write_all_error_state g2 (as_u8_slice b2) e2 h2
  constructor
  · rcases hpk : pick_up g1 b1 with ⟨r, gx, bx⟩
    rw [hpk] at h1 hout1
    simp only at h1
    subst h1
    simp [pick_up_and_hail, hpk]
    simpa using hout1
  · rcases hth : throw g2 b2 with ⟨r, gx⟩
    rw [hth] at h2 hst
    simp only at h2 hst
    subst h2
    subst hst
    simp [throw_and_wait, hth]

/-- Witness for C5: `pick_up` fails on an exhausted stream and `throw`
fails on a stream whose write side errors. -/
theorem composite_short_circuit_witness :
    (pick_up ⟨[], [], false, false⟩ [0]).1 =
      Except.error IoError.unexpectedEof ∧
    (throw ⟨[], [], false, true⟩ [5]).1 = Except.error IoError.other ∧
    (((pick_up_and_hail ⟨[], [], false, false⟩ [0]).1 =
        Except.error IoError.unexpectedEof ∧
      (pick_up_and_hail ⟨[], [], false, false⟩ [0]).2.1 =
        (pick_up ⟨[], [], false, false⟩ [0]).2.1 ∧
      (pick_up_and_hail ⟨[], [], false, false⟩ [0]).2.1.output = []) ∧
     ((throw_and_wait ⟨[], [], false, true⟩ [5]).1 =
        Except.error IoError.other ∧
      (throw_and_wait ⟨[], [], false, true⟩ [5]).2 = ⟨[], [], false, true⟩)) :=
  ⟨rfl, rfl,
    composite_short_circuit ⟨[], [], false, false⟩ ⟨[], [], false, true⟩
      [0] [5] IoError.unexpectedEof IoError.other rfl rfl⟩

/-- C8 counterexample: contrary to the claim that `pick_up` requires
only the read capability and `throw` only the write capability, the
trait bounds in the source (`pick_up<G: Read + Write, T>` and
`throw<G: Read + Write, T>`) demand the other capability as well. -/
theorem pick_up_throw_capability_counterexample :
    Capability.write ∈ requiredCapabilities Op.pick_up ∧
    Capability.read ∈ requiredCapabilities Op.throw := by
  decide

/-- C8 (amended): `pick_up`'s trait bound requires both the read and the
write capability of the stream, but `pick_up` never writes a byte (the
write side is untouched); symmetrically `throw`'s trait bound requires
both capabilities, but `throw` never reads a byte (the read side is
untouched). -/
theorem pick_up_throw_capability_frame (g : Gutter) (b : List Nat) :
    requiredCapabilities Op.pick_up = [Capability.read, Capability.write] ∧
    (pick_up g b).2.1.output = g.output ∧
    (pick_up g b).2.1.writeErr = g.writeErr ∧
    requiredCapabilities Op.throw = [Capability.read, Capability.write] ∧
    (throw g b).2.input = g.input ∧
    (throw g b).2.readErr = g.readErr :=
  ⟨rfl, (read_exact_output g (as_u8_slice_mut b)).1,
    (read_exact_output g (as_u8_slice_mut b)).2, rfl,
    (write_all_input g (as_u8_slice b)).1,
    (write_all_input g (as_u8_slice b)).2⟩

/-- C10: `pick_up_and_hail` is not atomic in its buffer. When `pick_up`
succeeds but the following `hail` fails, the composite returns an error,
yet the buffer already holds the received value — the next
`size_of::<T>()` input bytes — and is not rolled back. -/
theorem pick_up_and_hail_not_atomic (g : Gutter) (buf : List Nat)
    (hp : (pick_up g buf).1 = Except.ok ())
    (hh : (hail (pick_up g buf).2.1).1.isOk = false) :
    (pick_up_and_hail g buf).1.isOk = false ∧
    (pick_up_and_hail g buf).2.2 = (pick_up g buf).2.2 ∧
    (pick_up_and_hail g buf).2.2 = g.input.take buf.length := by
  have hb := (pick_up_ok_buffer g buf hp).1
  rcases hpk : pick_up g buf with ⟨r, gx, bx⟩
  rw [hpk] at hp hh hb
  simp only at hp hh hb
  subst hp
  rcases hhl : hail gx with ⟨rh, gy⟩
  rw [hhl] at hh
  simp only at hh
  cases rh with
  | ok u => simp [Except.isOk, Except.toBool] at hh
  | error e =>
    simp [pick_up_and_hail, hpk, hhl, Except.isOk, Except.toBool, hb]

/-- Witness for C10: two bytes are received, then the acknowledgment
write fails; the buffer keeps the received bytes. -/
theorem pick_up_and_hail_not_atomic_witness :
    (pick_up ⟨[1, 2], [], false, true⟩ [0, 0]).1 = Except.ok () ∧
    (hail (pick_up ⟨[1, 2], [], false, true⟩ [0, 0]).2.1).1.isOk = false ∧
    ((pick_up_and_hail ⟨[1, 2], [], false, true⟩ [0, 0]).1.isOk = false ∧
     (pick_up_and_hail ⟨[1, 2], [], false, true⟩ [0, 0]).2.2 =
       (pick_up ⟨[1, 2], [], false, true⟩ [0, 0]).2.2 ∧
     (pick_up_and_hail ⟨[1, 2], [], false, true⟩ [0, 0]).2.2 =
       List.take [(0:Nat), 0].length [1, 2]) :=
  ⟨rfl, rfl,
    pick_up_and_hail_not_atomic ⟨[1, 2], [], false, true⟩ [0, 0] rfl rfl⟩

end Gutters
